import Mathlib

/-!
Verification of the workout-trainer web application.

The repository ships two near-identical drafts of the application:
`src/src/App.tsx` (suffix `_tsx` below) and `src/unnamed/part_000`
(suffix `_p0` below).  Where the two drafts agree, a single unsuffixed
definition models both.  Machine numbers are modelled as `Int` where the
program only compares and maximises them, and as `ℚ` for the icon
generator's fractional arithmetic.  JavaScript objects used as string-keyed
maps are modelled as insertion-ordered association lists, and JavaScript
`Set` as an insertion-ordered duplicate-free list, which matches the
iteration order the code relies on.
-/

-- ===== Data model (§3 of the spec; `Types` sections of both drafts) =====

inductive ExType where
  | strength
  | mobility
  | core
  | plyo
  | cardio
deriving DecidableEq

structure Exercise where
  id : String
  name : String
  equipment : String
  default_reps : Option String := none
  type : ExType
  thumbnail_url : Option String := none
  yt_query : Option String := none
  description : Option String := none
deriving DecidableEq

structure PlanRow where
  day_id : String
  day_name : String
  block_order : Int
  block_name : String
  set_number : Int
  exercise_id : String
  prescribed_reps : Option String := none
  tempo : Option String := none
  notes : Option String := none
deriving DecidableEq

structure StrengthLog where
  date_iso : String
  day_id : String
  block_name : String
  set_number : Int
  exercise_id : String
  reps_done : Option String := none
  load : Option String := none
  notes : Option String := none
deriving DecidableEq

structure CardioPlanRow where
  day_id : Option String := none
  date_iso : Option String := none
  activity : String
  target_duration_min : Option ℚ := none
  target_hr_zone : Option String := none
  target_rpe : Option ℚ := none
  notes : Option String := none
deriving DecidableEq

structure CardioLog where
  date_iso : String
  activity : String
  duration_min : Option ℚ := none
  distance_km : Option ℚ := none
  avg_hr : Option ℚ := none
  rpe : Option ℚ := none
  tss : Option ℚ := none
  notes : Option String := none
deriving DecidableEq

-- ===== Association lists: the model of JS string-keyed objects =====

/-- Lookup in a JS object modelled as an insertion-ordered association list. -/
def assocLookup {α : Type} : List (String × α) → String → Option α
  | [], _ => none
  | (k', v) :: rest, k => if k' = k then some v else assocLookup rest k

/-- JS `obj[k] = v`: overwrite in place if the key exists, else append
(JS objects preserve first-insertion order for string keys). -/
def assocUpsert {α : Type} : List (String × α) → String → α → List (String × α)
  | [], k, v => [(k, v)]
  | (k', v') :: rest, k, v =>
      if k' = k then (k, v) :: rest else (k', v') :: assocUpsert rest k v

/-- JS `Set.add`: append the element if it is not already present. -/
def setAdd (l : List String) (x : String) : List String :=
  if x ∈ l then l else l ++ [x]

theorem assocLookup_upsert {α : Type} (l : List (String × α)) (k k' : String) (v : α) :
    assocLookup (assocUpsert l k v) k' =
      if k = k' then some v else assocLookup l k' := by
  induction l with
  | nil => simp [assocUpsert, assocLookup]
  | cons p rest ih =>
      obtain ⟨a, b⟩ := p
      by_cases hak : a = k
      · subst hak
        by_cases hk' : a = k'
        · subst hk'
          simp [assocUpsert, assocLookup]
        · simp [assocUpsert, assocLookup, hk']
      · by_cases hak' : a = k'
        · subst hak'
          have hka : k ≠ a := fun h => hak h.symm
          simp [assocUpsert, assocLookup, hak, hka]
        · simp [assocUpsert, assocLookup, hak, hak', ih]

theorem mem_setAdd (l : List String) (x y : String) :
    y ∈ setAdd l x ↔ y ∈ l ∨ y = x := by
  by_cases h : x ∈ l
  · simp only [setAdd, if_pos h]
    constructor
    · exact Or.inl
    · rintro (hy | rfl)
      · exact hy
      · exact h
  · simp [setAdd, h]

-- ===== Block grouping (`DayWorkoutView.blocks`, identical in both drafts) =====

/-- The per-`block_name` accumulator record built by the grouping loop. -/
structure GroupInfo where
  order : Int
  sets : Int
  exercises : List String
  prescribed : List (String × String)
deriving DecidableEq

/-- One iteration of the `for (const row of plan)` loop in
`DayWorkoutView.blocks`: create the group on first sight (capturing that
row's `block_order`), then fold in the running max `set_number`, the
exercise-id set, and any truthy `prescribed_reps` override. -/
def groupStep (acc : List (String × GroupInfo)) (row : PlanRow) :
    List (String × GroupInfo) :=
  let g0 := (assocLookup acc row.block_name).getD
    { order := row.block_order, sets := 0, exercises := [], prescribed := [] }
  let g1 : GroupInfo :=
    { g0 with
      sets := max g0.sets row.set_number
      exercises := setAdd g0.exercises row.exercise_id
      prescribed :=
        match row.prescribed_reps with
        | some s => if s = "" then g0.prescribed
                    else assocUpsert g0.prescribed row.exercise_id s
        | none => g0.prescribed }
  assocUpsert acc row.block_name g1

/-- The grouping pass over the whole plan. -/
def groupRows (plan : List PlanRow) : List (String × GroupInfo) :=
  plan.foldl groupStep []

/-- Stable insertion of one entry after every entry with `order` ≤ its own:
the model of one step of the (stable) JS `sort((a, b) => a.order - b.order)`. -/
def insertOrdered : List (String × GroupInfo) → String × GroupInfo →
    List (String × GroupInfo)
  | [], x => [x]
  | y :: ys, x => if y.2.order ≤ x.2.order then y :: insertOrdered ys x
                  else x :: y :: ys

/-- Stable sort of the grouped entries ascending by captured `order`. -/
def sortByOrder (l : List (String × GroupInfo)) : List (String × GroupInfo) :=
  l.foldl insertOrdered []

/-- One entry of the array returned by the `blocks` memo. -/
structure DerivedBlock where
  name : String
  setCount : Int
  exercises : List Exercise
  prescribed : List (String × String)
deriving DecidableEq

/-- The full `blocks` computation: group, sort by captured order, then
resolve exercise ids through the exercise map, silently dropping misses
(`.map(id => exMap[id]).filter(Boolean)`). -/
def dayWorkoutBlocks (plan : List PlanRow) (exMap : List (String × Exercise)) :
    List DerivedBlock :=
  (sortByOrder (groupRows plan)).map fun nv =>
    { name := nv.1
      setCount := nv.2.sets
      exercises := nv.2.exercises.filterMap (assocLookup exMap)
      prescribed := nv.2.prescribed }

/-- The derived set count of the named block: 0 when the block is absent. -/
def blockSets (plan : List PlanRow) (name : String) : Int :=
  ((assocLookup (groupRows plan) name).map GroupInfo.sets).getD 0

/-- Whether any group was created for this block name. -/
def hasBlock (plan : List PlanRow) (name : String) : Bool :=
  (assocLookup (groupRows plan) name).isSome

/-- The exercise-id set (in first-encounter order) of the named block. -/
def blockExercises (plan : List PlanRow) (name : String) : List String :=
  ((assocLookup (groupRows plan) name).map GroupInfo.exercises).getD []

/-- The `set_number`s of the rows belonging to the named block. -/
def blockSetNumbers (plan : List PlanRow) (name : String) : List Int :=
  (plan.filter fun r => decide (r.block_name = name)).map PlanRow.set_number

-- ===== Invariants of the grouping fold =====

/-- Derived `sets` value under a lookup, defaulting to 0 for absent groups
(the loop also starts a fresh group at `sets = 0`). -/
def optSets (acc : List (String × GroupInfo)) (name : String) : Int :=
  ((assocLookup acc name).map GroupInfo.sets).getD 0

/-- Exercise-id list under a lookup, defaulting to the empty set. -/
def optExs (acc : List (String × GroupInfo)) (name : String) : List String :=
  ((assocLookup acc name).map GroupInfo.exercises).getD []

theorem optSets_groupStep (acc : List (String × GroupInfo)) (row : PlanRow)
    (name : String) :
    optSets (groupStep acc row) name =
      if row.block_name = name then max (optSets acc name) row.set_number
      else optSets acc name := by
  unfold groupStep optSets
  rw [assocLookup_upsert]
  by_cases h : row.block_name = name
  · subst h
    cases assocLookup acc row.block_name <;> simp
  · simp [h]

theorem optExs_groupStep (acc : List (String × GroupInfo)) (row : PlanRow)
    (name : String) :
    optExs (groupStep acc row) name =
      if row.block_name = name then setAdd (optExs acc name) row.exercise_id
      else optExs acc name := by
  unfold groupStep optExs
  rw [assocLookup_upsert]
  by_cases h : row.block_name = name
  · subst h
    cases assocLookup acc row.block_name <;> simp
  · simp [h]

theorem isSome_groupStep (acc : List (String × GroupInfo)) (row : PlanRow)
    (name : String) :
    (assocLookup (groupStep acc row) name).isSome =
      (decide (row.block_name = name) || (assocLookup acc name).isSome) := by
  unfold groupStep
  rw [assocLookup_upsert]
  by_cases h : row.block_name = name <;> simp [h]

theorem optSets_foldl (plan : List PlanRow) :
    ∀ (acc : List (String × GroupInfo)) (name : String),
      optSets (plan.foldl groupStep acc) name =
        (plan.filter fun r => decide (r.block_name = name)).foldl
          (fun m r => max m r.set_number) (optSets acc name) := by
  induction plan with
  | nil => intro acc name; rfl
  | cons r rest ih =>
      intro acc name
      rw [List.foldl_cons, ih, List.filter_cons]
      by_cases h : r.block_name = name
      · simp [h, optSets_groupStep]
      · simp [h, optSets_groupStep]

theorem mem_optExs_foldl (plan : List PlanRow) :
    ∀ (acc : List (String × GroupInfo)) (name e : String),
      e ∈ optExs (plan.foldl groupStep acc) name ↔
        e ∈ optExs acc name ∨
          ∃ r ∈ plan, r.block_name = name ∧ r.exercise_id = e := by
  induction plan with
  | nil => intro acc name e; simp
  | cons r rest ih =>
      intro acc name e
      rw [List.foldl_cons, ih]
      by_cases h : r.block_name = name
      · rw [optExs_groupStep, if_pos h, mem_setAdd]
        constructor
        · rintro ((he | rfl) | hrest)
          · exact Or.inl he
          · exact Or.inr ⟨r, List.mem_cons_self r rest, h, rfl⟩
          · obtain ⟨r', hr', hb, hx⟩ := hrest
            exact Or.inr ⟨r', List.mem_cons_of_mem r hr', hb, hx⟩
        · rintro (he | ⟨r', hr', hb, hx⟩)
          · exact Or.inl (Or.inl he)
          · rcases List.mem_cons.mp hr' with rfl | hr''
            · exact Or.inl (Or.inr hx.symm)
            · exact Or.inr ⟨r', hr'', hb, hx⟩
      · rw [optExs_groupStep, if_neg h]
        constructor
        · rintro (he | ⟨r', hr', hb, hx⟩)
          · exact Or.inl he
          · exact Or.inr ⟨r', List.mem_cons_of_mem r hr', hb, hx⟩
        · rintro (he | ⟨r', hr', hb, hx⟩)
          · exact Or.inl he
          · rcases List.mem_cons.mp hr' with rfl | hr''
            · exact absurd hb h
            · exact Or.inr ⟨r', hr'', hb, hx⟩

theorem isSome_foldl (plan : List PlanRow) :
    ∀ (acc : List (String × GroupInfo)) (name : String),
      (assocLookup (plan.foldl groupStep acc) name).isSome = true ↔
        (assocLookup acc name).isSome = true ∨
          ∃ r ∈ plan, r.block_name = name := by
  induction plan with
  | nil => intro acc name; simp
  | cons r rest ih =>
      intro acc name
      rw [List.foldl_cons, ih, isSome_groupStep]
      by_cases h : r.block_name = name
      · constructor
        · intro _
          exact Or.inr ⟨r, List.mem_cons_self r rest, h⟩
        · intro _
          simp [h]
      · have hd : decide (r.block_name = name) = false := by simp [h]
        rw [hd, Bool.false_or]
        constructor
        · rintro (ha | ⟨r', hr', hb⟩)
          · exact Or.inl ha
          · exact Or.inr ⟨r', List.mem_cons_of_mem r hr', hb⟩
        · rintro (ha | ⟨r', hr', hb⟩)
          · exact Or.inl ha
          · rcases List.mem_cons.mp hr' with rfl | hr''
            · exact absurd hb h
            · exact Or.inr ⟨r', hr'', hb⟩

-- ===== Facts about the running-max fold =====

theorem le_foldl_max (ns : List Int) : ∀ (a : Int), a ≤ ns.foldl max a := by
  induction ns with
  | nil => intro a; exact le_refl a
  | cons n rest ih =>
      intro a
      exact le_trans (le_max_left a n) (ih (max a n))

theorem foldl_max_le_of_mem (ns : List Int) :
    ∀ (a x : Int), x ∈ ns → x ≤ ns.foldl max a := by
  induction ns with
  | nil => intro a x hx; exact absurd hx (List.not_mem_nil x)
  | cons n rest ih =>
      intro a x hx
      rcases List.mem_cons.mp hx with rfl | hx'
      · exact le_trans (le_max_right a x) (le_foldl_max rest (max a x))
      · exact ih (max a n) x hx'

theorem foldl_max_eq_or_mem (ns : List Int) :
    ∀ (a : Int), ns.foldl max a = a ∨ ns.foldl max a ∈ ns := by
  induction ns with
  | nil => intro a; exact Or.inl rfl
  | cons n rest ih =>
      intro a
      rcases ih (max a n) with h | h
      · rw [List.foldl_cons, h]
        rcases max_choice a n with hm | hm
        · exact Or.inl hm
        · exact Or.inr (by rw [hm]; exact List.mem_cons_self n rest)
      · exact Or.inr (List.mem_cons_of_mem n h)

theorem foldl_max_perm {ns₁ ns₂ : List Int} (h : ns₁.Perm ns₂) :
    ∀ (a : Int), ns₁.foldl max a = ns₂.foldl max a := by
  induction h with
  | nil => intro a; rfl
  | cons x _ ih => intro a; exact ih (max a x)
  | swap x y l =>
      intro a
      have hmax : max (max a y) x = max (max a x) y := by
        rw [max_assoc, max_comm y x, ← max_assoc]
      rw [List.foldl_cons, List.foldl_cons, List.foldl_cons, List.foldl_cons,
        hmax]
  | trans _ _ ih₁ ih₂ => intro a; exact (ih₁ a).trans (ih₂ a)

-- ===== Claim-facing grouping facts =====

theorem blockSets_eq_foldl_max (plan : List PlanRow) (name : String) :
    blockSets plan name = (blockSetNumbers plan name).foldl max 0 := by
  have h := optSets_foldl plan [] name
  have h0 : optSets [] name = 0 := rfl
  rw [h0] at h
  unfold blockSets groupRows blockSetNumbers
  rw [show ((assocLookup (plan.foldl groupStep []) name).map GroupInfo.sets).getD 0
      = optSets (plan.foldl groupStep []) name from rfl, h, List.foldl_map]

theorem hasBlock_iff (plan : List PlanRow) (name : String) :
    hasBlock plan name = true ↔ ∃ r ∈ plan, r.block_name = name := by
  have h := isSome_foldl plan [] name
  unfold hasBlock groupRows
  rw [h]
  simp [assocLookup]

theorem mem_blockExercises_iff (plan : List PlanRow) (name e : String) :
    e ∈ blockExercises plan name ↔
      ∃ r ∈ plan, r.block_name = name ∧ r.exercise_id = e := by
  have h := mem_optExs_foldl plan [] name e
  unfold blockExercises groupRows
  rw [show (((assocLookup (plan.foldl groupStep []) name).map
      GroupInfo.exercises).getD []) = optExs (plan.foldl groupStep []) name from rfl,
    h]
  simp [optExs, assocLookup]

-- ===== C1: grouping max / permutation behaviour =====

/-- C1 (amended): for any list of PlanRows with positive set numbers, the
grouping derives, for each present `block_name`, a set count equal to the
maximum `set_number` among that block's rows, and that count — together
with the set of block names and each block's set of exercise ids — is
invariant under any permutation of the input rows.  (The derived blocks as
a whole are not permutation-invariant; see the counterexample.) -/
theorem dayWorkoutBlocks_grouping_spec (l₁ l₂ : List PlanRow)
    (hperm : l₁.Perm l₂) (hpos : ∀ r ∈ l₁, 1 ≤ r.set_number) :
    (∀ name, hasBlock l₁ name = true →
      blockSets l₁ name ∈ blockSetNumbers l₁ name ∧
        ∀ x ∈ blockSetNumbers l₁ name, x ≤ blockSets l₁ name) ∧
    (∀ name, blockSets l₁ name = blockSets l₂ name) ∧
    (∀ name, hasBlock l₁ name = hasBlock l₂ name) ∧
    (∀ name e, e ∈ blockExercises l₁ name ↔ e ∈ blockExercises l₂ name) := by
  refine ⟨?_, ?_, ?_, ?_⟩
  · intro name hname
    obtain ⟨r, hr, hb⟩ := (hasBlock_iff l₁ name).mp hname
    have hrmem : r.set_number ∈ blockSetNumbers l₁ name := by
      unfold blockSetNumbers
      exact List.mem_map_of_mem PlanRow.set_number
        (List.mem_filter.mpr ⟨hr, by simp [hb]⟩)
    rw [blockSets_eq_foldl_max]
    constructor
    · rcases foldl_max_eq_or_mem (blockSetNumbers l₁ name) 0 with hz | hm
      · exfalso
        have h1 : r.set_number ≤ (blockSetNumbers l₁ name).foldl max 0 :=
          foldl_max_le_of_mem _ 0 _ hrmem
        have h2 : (1 : Int) ≤ r.set_number := hpos r hr
        omega
      · exact hm
    · intro x hx
      exact foldl_max_le_of_mem _ 0 _ hx
  · intro name
    rw [blockSets_eq_foldl_max, blockSets_eq_foldl_max]
    exact foldl_max_perm ((hperm.filter _).map PlanRow.set_number) 0
  · intro name
    have h₁ := hasBlock_iff l₁ name
    have h₂ := hasBlock_iff l₂ name
    have hiff : (∃ r ∈ l₁, r.block_name = name) ↔
        ∃ r ∈ l₂, r.block_name = name := by
      constructor
      · rintro ⟨r, hr, hb⟩; exact ⟨r, hperm.mem_iff.mp hr, hb⟩
      · rintro ⟨r, hr, hb⟩; exact ⟨r, hperm.mem_iff.mpr hr, hb⟩
    rw [Bool.eq_iff_iff, h₁, h₂]
    exact hiff
  · intro name e
    rw [mem_blockExercises_iff, mem_blockExercises_iff]
    constructor
    · rintro ⟨r, hr, hb, hx⟩; exact ⟨r, hperm.mem_iff.mp hr, hb, hx⟩
    · rintro ⟨r, hr, hb, hx⟩; exact ⟨r, hperm.mem_iff.mpr hr, hb, hx⟩

/-- One seeded plan row of the mock database, used as a concrete input. -/
def mockPlanRow : PlanRow :=
  { day_id := "Day 1", day_name := "Glutes + Core", block_order := 1
    block_name := "Glute Strength Block", set_number := 3
    exercise_id := "ex_glute_bridge", prescribed_reps := some "8 to 10" }

/-- C1 witness: the grouping theorem applied to a concrete one-row plan. -/
theorem dayWorkoutBlocks_grouping_spec_witness :
    ([mockPlanRow].Perm [mockPlanRow] ∧ (∀ r ∈ [mockPlanRow], 1 ≤ r.set_number)) ∧
    ((∀ name, hasBlock [mockPlanRow] name = true →
      blockSets [mockPlanRow] name ∈ blockSetNumbers [mockPlanRow] name ∧
        ∀ x ∈ blockSetNumbers [mockPlanRow] name, x ≤ blockSets [mockPlanRow] name) ∧
    (∀ name, blockSets [mockPlanRow] name = blockSets [mockPlanRow] name) ∧
    (∀ name, hasBlock [mockPlanRow] name = hasBlock [mockPlanRow] name) ∧
    (∀ name e, e ∈ blockExercises [mockPlanRow] name ↔
      e ∈ blockExercises [mockPlanRow] name)) :=
  ⟨⟨List.Perm.refl _, by decide⟩,
    dayWorkoutBlocks_grouping_spec [mockPlanRow] [mockPlanRow]
      (List.Perm.refl _) (by decide)⟩

-- Concrete fixtures for the C1 counterexample.

def exA : Exercise := { id := "e1", name := "E1", equipment := "", type := ExType.strength }

def exB : Exercise := { id := "e2", name := "E2", equipment := "", type := ExType.strength }

def exMapAB : List (String × Exercise) := [("e1", exA), ("e2", exB)]

def rowA : PlanRow :=
  { day_id := "Day 1", day_name := "D", block_order := 5, block_name := "B1"
    set_number := 1, exercise_id := "e1", prescribed_reps := some "10" }

def rowB : PlanRow :=
  { day_id := "Day 1", day_name := "D", block_order := 1, block_name := "B1"
    set_number := 2, exercise_id := "e1", prescribed_reps := some "12" }

def rowC : PlanRow :=
  { day_id := "Day 1", day_name := "D", block_order := 3, block_name := "B2"
    set_number := 1, exercise_id := "e2" }

def rowS1 : PlanRow :=
  { day_id := "Day 1", day_name := "D", block_order := 1, block_name := "B"
    set_number := 1, exercise_id := "e1" }

def rowS2 : PlanRow :=
  { day_id := "Day 1", day_name := "D", block_order := 1, block_name := "B"
    set_number := 1, exercise_id := "e2" }

/-- C1 counterexample: permuting the plan rows changes the derived blocks.
In the first pair the captured `block_order` (hence the sorted block order)
and the winning `prescribed_reps` override change; in the second pair the
derived exercise-list order changes. -/
theorem dayWorkoutBlocks_not_perm_invariant :
    ((rowA :: rowB :: [rowC]).Perm (rowB :: rowA :: [rowC]) ∧
      dayWorkoutBlocks (rowA :: rowB :: [rowC]) exMapAB ≠
        dayWorkoutBlocks (rowB :: rowA :: [rowC]) exMapAB) ∧
    ((rowS1 :: rowS2 :: []).Perm (rowS2 :: rowS1 :: []) ∧
      dayWorkoutBlocks (rowS1 :: rowS2 :: []) exMapAB ≠
        dayWorkoutBlocks (rowS2 :: rowS1 :: []) exMapAB) :=
  ⟨⟨List.Perm.swap rowB rowA [rowC], by decide⟩,
    ⟨List.Perm.swap rowS2 rowS1 [], by decide⟩⟩

-- ===== The Block renderer (`Block` + `ExerciseCard`, identical in both drafts) =====

/-- The data one rendered `ExerciseCard` receives from `Block`. -/
structure CardData where
  exercise : Exercise
  setNumber : Int
  prescribedReps : Option String
deriving DecidableEq

/-- The inner `for (const ex of exercises)` loop body for one set number. -/
def cardsForSet (exercises : List Exercise) (prescribed : List (String × String))
    (s : Int) : List CardData :=
  exercises.map fun ex =>
    { exercise := ex, setNumber := s, prescribedReps := assocLookup prescribed ex.id }

/-- The outer `for (let set = 1; set <= setCount; set++)` loop, unrolled from
set number `s` for `k` more iterations. -/
def blockCardsFrom (exercises : List Exercise) (prescribed : List (String × String))
    (s : Int) : Nat → List CardData
  | 0 => []
  | k + 1 => cardsForSet exercises prescribed s ++
      blockCardsFrom exercises prescribed (s + 1) k

/-- All cards pushed by the `Block` component for a given `setCount`,
exercise list, and per-exercise prescription map. -/
def blockCards (setCount : Int) (exercises : List Exercise)
    (prescribed : List (String × String)) : List CardData :=
  blockCardsFrom exercises prescribed 1 setCount.toNat

theorem exists_mem_append {α : Type} (p : α → Prop) (l₁ l₂ : List α) :
    (∃ x ∈ l₁ ++ l₂, p x) ↔ (∃ x ∈ l₁, p x) ∨ (∃ x ∈ l₂, p x) := by
  constructor
  · rintro ⟨x, hx, hp⟩
    rcases List.mem_append.mp hx with h | h
    · exact Or.inl ⟨x, h, hp⟩
    · exact Or.inr ⟨x, h, hp⟩
  · rintro (⟨x, hx, hp⟩ | ⟨x, hx, hp⟩)
    · exact ⟨x, List.mem_append_left _ hx, hp⟩
    · exact ⟨x, List.mem_append_right _ hx, hp⟩

theorem mem_cardsForSet (exercises : List Exercise)
    (prescribed : List (String × String)) (s : Int) (ex : Exercise) (t : Int) :
    (∃ c ∈ cardsForSet exercises prescribed s, c.exercise = ex ∧ c.setNumber = t) ↔
      ex ∈ exercises ∧ t = s := by
  constructor
  · rintro ⟨c, hc, he, hs⟩
    obtain ⟨ex', hex', rfl⟩ := List.mem_map.mp hc
    exact ⟨he ▸ hex', hs.symm⟩
  · rintro ⟨hex, rfl⟩
    exact ⟨{ exercise := ex, setNumber := t,
             prescribedReps := assocLookup prescribed ex.id },
      List.mem_map_of_mem _ hex, rfl, rfl⟩

theorem length_blockCardsFrom (exercises : List Exercise)
    (prescribed : List (String × String)) :
    ∀ (k : Nat) (s : Int),
      (blockCardsFrom exercises prescribed s k).length = k * exercises.length := by
  intro k
  induction k with
  | zero => intro s; simp [blockCardsFrom]
  | succ k ih =>
      intro s
      show (cardsForSet exercises prescribed s ++
        blockCardsFrom exercises prescribed (s + 1) k).length = _
      rw [List.length_append, ih (s + 1)]
      unfold cardsForSet
      rw [List.length_map]
      ring

theorem mem_blockCardsFrom (exercises : List Exercise)
    (prescribed : List (String × String)) :
    ∀ (k : Nat) (s : Int) (ex : Exercise) (t : Int),
      (∃ c ∈ blockCardsFrom exercises prescribed s k,
        c.exercise = ex ∧ c.setNumber = t) ↔
        ex ∈ exercises ∧ s ≤ t ∧ t < s + k := by
  intro k
  induction k with
  | zero =>
      intro s ex t
      constructor
      · rintro ⟨c, hc, _⟩
        exact absurd hc (List.not_mem_nil c)
      · rintro ⟨_, h1, h2⟩
        omega
  | succ k ih =>
      intro s ex t
      show (∃ c ∈ cardsForSet exercises prescribed s ++
          blockCardsFrom exercises prescribed (s + 1) k, _) ↔ _
      rw [exists_mem_append, mem_cardsForSet, ih (s + 1)]
      constructor
      · rintro (⟨hex, rfl⟩ | ⟨hex, h1, h2⟩)
        · exact ⟨hex, le_refl _, by omega⟩
        · exact ⟨hex, by omega, by omega⟩
      · rintro ⟨hex, h1, h2⟩
        by_cases hts : t = s
        · exact Or.inl ⟨hex, hts⟩
        · exact Or.inr ⟨hex, by omega, by omega⟩

-- ===== C2: cross-product rendering =====

/-- C2 (confirmed): for a block with set count `N` and exercise list `E`,
the `Block` renderer emits exactly `N * |E|` cards — one card per
`(exercise, set_number)` pair with `set_number` ranging over `1..N` —
independent of how many PlanRows exist for the block (`Block` never sees
the rows, only the derived `setCount`/`exercises`/`prescribed`). -/
theorem block_renders_cross_product (n : Nat) (exercises : List Exercise)
    (prescribed : List (String × String)) :
    (blockCards (n : Int) exercises prescribed).length = n * exercises.length ∧
    ∀ (ex : Exercise) (s : Int),
      (∃ c ∈ blockCards (n : Int) exercises prescribed,
        c.exercise = ex ∧ c.setNumber = s) ↔
        ex ∈ exercises ∧ 1 ≤ s ∧ s ≤ (n : Int) := by
  have ht : ((n : Int)).toNat = n := by omega
  constructor
  · unfold blockCards
    rw [ht]
    exact length_blockCardsFrom exercises prescribed n 1
  · intro ex s
    unfold blockCards
    rw [ht, mem_blockCardsFrom]
    constructor
    · rintro ⟨hex, h1, h2⟩
      exact ⟨hex, h1, by omega⟩
    · rintro ⟨hex, h1, h2⟩
      exact ⟨hex, h1, by omega⟩

-- ===== C8: prescription precedence =====

/-- JS `a || b` on an optional string: the empty string is falsy. -/
def jsOrString (o : Option String) (b : String) : String :=
  match o with
  | some s => if s = "" then b else s
  | none => b

/-- The `Prescribed:` line of `ExerciseCard`:
`prescribedReps || exercise.default_reps || "as assigned"`. -/
def prescriptionText (prescribedReps default_reps : Option String) : String :=
  jsOrString prescribedReps (jsOrString default_reps "as assigned")

/-- The prescription line rendered for one card. -/
def renderPrescription (c : CardData) : String :=
  prescriptionText c.prescribedReps c.exercise.default_reps

/-- C8 (confirmed): the rendered prescription text prefers the block-level
override when present (non-empty), else the exercise's `default_reps` when
present (non-empty), else the literal "as assigned"; in particular with
`default_reps = "8 to 10"` and override "12" the card reads "12". -/
theorem exerciseCard_prescription_precedence :
    (∀ (s : String) (d : Option String), s ≠ "" →
      prescriptionText (some s) d = s) ∧
    (∀ (d : String), d ≠ "" →
      prescriptionText none (some d) = d ∧ prescriptionText (some "") (some d) = d) ∧
    prescriptionText none none = "as assigned" ∧
    prescriptionText (some "") none = "as assigned" ∧
    prescriptionText none (some "") = "as assigned" ∧
    prescriptionText (some "12") (some "8 to 10") = "12" := by
  refine ⟨?_, ?_, by decide, by decide, by decide, by decide⟩
  · intro s d hs
    simp [prescriptionText, jsOrString, hs]
  · intro d hd
    constructor <;> simp [prescriptionText, jsOrString, hd]

/-- C8 witness: the precedence theorem evaluated at the spec's example. -/
theorem exerciseCard_prescription_precedence_witness :
    ("12" : String) ≠ "" ∧ ("8 to 10" : String) ≠ "" ∧
    prescriptionText (some "12") (some "8 to 10") = "12" ∧
    prescriptionText none (some "8 to 10") = "8 to 10" ∧
    prescriptionText none none = "as assigned" :=
  ⟨by decide, by decide,
    exerciseCard_prescription_precedence.1 "12" (some "8 to 10") (by decide),
    (exerciseCard_prescription_precedence.2.1 "8 to 10" (by decide)).1,
    exerciseCard_prescription_precedence.2.2.1⟩

-- ===== C3: DayWorkoutView.onSave =====

/-- The log built by `onSave`: `plan.find(p => p.exercise_id === exercise_id)`
supplies `day_id` and `block_name`; `none` when no plan row matches. -/
def dayOnSave (plan : List PlanRow) (today exercise_id : String)
    (set_number : Int) (reps load notes : String) : Option StrengthLog :=
  match plan.find? (fun p => decide (p.exercise_id = exercise_id)) with
  | none => none
  | some dayRow => some
      { date_iso := today, day_id := dayRow.day_id
        block_name := dayRow.block_name, set_number := set_number
        exercise_id := exercise_id, reps_done := some reps
        load := some load, notes := some notes }

/-- Model of `MockAdapter.saveStrengthLog`: append to the log collection, report `ok`. -/
def saveStrengthLog_mock (logs : List StrengthLog) (log : StrengthLog) :
    List StrengthLog × Bool :=
  (logs ++ [log], true)

/-- The effect of one `onSave` click on the adapter's strength-log state:
no matching plan row means an early `return` and no write. -/
def dayOnSaveEffect (logs : List StrengthLog) (plan : List PlanRow)
    (today exercise_id : String) (set_number : Int)
    (reps load notes : String) : List StrengthLog :=
  match dayOnSave plan today exercise_id set_number reps load notes with
  | none => logs
  | some log => (saveStrengthLog_mock logs log).1

theorem find?_append_first {α : Type} (p : α → Bool) :
    ∀ (pre : List α) (row : α) (post : List α),
      (∀ x ∈ pre, p x = false) → p row = true →
      (pre ++ row :: post).find? p = some row := by
  intro pre
  induction pre with
  | nil =>
      intro row post _ hrow
      simp [List.find?_cons_of_pos _ hrow]
  | cons a pre' ih =>
      intro row post hpre hrow
      have ha : p a = false := hpre a (List.mem_cons_self a pre')
      rw [List.cons_append, List.find?_cons_of_neg _ (by simp [ha])]
      exact ih row post (fun x hx => hpre x (List.mem_cons_of_mem a hx)) hrow

/-- C3 (confirmed): saving a set for `(exercise_id, set_number)` locates the
first plan row whose `exercise_id` matches, ignoring block context, and
builds the StrengthLog from that row's `day_id` and `block_name`; if no
plan row matches, nothing happens and the adapter's log state is
unchanged. -/
theorem dayWorkoutView_onSave_spec (plan : List PlanRow) (logs : List StrengthLog)
    (today exId : String) (setN : Int) (reps load notes : String) :
    ((∀ p ∈ plan, p.exercise_id ≠ exId) →
      dayOnSave plan today exId setN reps load notes = none ∧
      dayOnSaveEffect logs plan today exId setN reps load notes = logs) ∧
    (∀ (pre post : List PlanRow) (row : PlanRow),
      plan = pre ++ row :: post →
      (∀ p ∈ pre, p.exercise_id ≠ exId) →
      row.exercise_id = exId →
      dayOnSaveEffect logs plan today exId setN reps load notes =
        logs ++ [{ date_iso := today, day_id := row.day_id
                   block_name := row.block_name, set_number := setN
                   exercise_id := exId, reps_done := some reps
                   load := some load, notes := some notes }]) := by
  constructor
  · intro hnone
    have hfind : plan.find? (fun p => decide (p.exercise_id = exId)) = none := by
      rw [List.find?_eq_none]
      intro x hx
      simp [hnone x hx]
    constructor
    · simp [dayOnSave, hfind]
    · simp [dayOnSaveEffect, dayOnSave, hfind]
  · intro pre post row hplan hpre hrow
    have hfind : plan.find? (fun p => decide (p.exercise_id = exId)) = some row := by
      rw [hplan]
      exact find?_append_first _ pre row post
        (fun x hx => by simp [hpre x hx]) (by simp [hrow])
    simp [dayOnSaveEffect, dayOnSave, hfind, saveStrengthLog_mock]

/-- First concrete plan row for the C3 witness: matching exercise, block A. -/
def saveRow1 : PlanRow :=
  { day_id := "Day 1", day_name := "D", block_order := 1, block_name := "Block A"
    set_number := 1, exercise_id := "e1" }

/-- Second concrete plan row for the C3 witness: same exercise, block B. -/
def saveRow2 : PlanRow :=
  { day_id := "Day 1", day_name := "D", block_order := 2, block_name := "Block B"
    set_number := 2, exercise_id := "e1" }

/-- C3 witness: on a two-row plan listing the same exercise in two blocks,
saving builds the log from the first row's block; a non-matching exercise id
leaves the log state unchanged. -/
theorem dayWorkoutView_onSave_spec_witness :
    (saveRow1.exercise_id = "e1" ∧ (∀ p ∈ ([] : List PlanRow), p.exercise_id ≠ "e1") ∧
      dayOnSaveEffect [] [saveRow1, saveRow2] "2026-10-11" "e1" 2 "8" "20 lb" "" =
        [{ date_iso := "2026-10-11", day_id := "Day 1", block_name := "Block A"
           set_number := 2, exercise_id := "e1", reps_done := some "8"
           load := some "20 lb", notes := some "" }]) ∧
    ((∀ p ∈ [saveRow1, saveRow2], p.exercise_id ≠ "zz") ∧
      dayOnSave [saveRow1, saveRow2] "2026-10-11" "zz" 1 "" "" "" = none ∧
      dayOnSaveEffect [] [saveRow1, saveRow2] "2026-10-11" "zz" 1 "" "" "" = []) :=
  ⟨⟨rfl, by decide,
    (dayWorkoutView_onSave_spec [saveRow1, saveRow2] [] "2026-10-11" "e1" 2
      "8" "20 lb" "").2 [] [saveRow2] saveRow1 rfl (by decide) rfl⟩,
   ⟨by decide,
    ((dayWorkoutView_onSave_spec [saveRow1, saveRow2] [] "2026-10-11" "zz" 1
      "" "" "").1 (by decide)).1,
    ((dayWorkoutView_onSave_spec [saveRow1, saveRow2] [] "2026-10-11" "zz" 1
      "" "" "").1 (by decide)).2⟩⟩

-- ===== C4: MockAdapter.addExercise =====

/-- The `{ ok, exercise_id }` record returned by `addExercise`. -/
structure AddExerciseResult where
  ok : Bool
  exercise_id : String
deriving DecidableEq

/-- Base-36 digit as produced by `Number.prototype.toString(36)`. -/
def isBase36Char (c : Char) : Bool :=
  c.isDigit || (decide ('a' ≤ c) && decide (c ≤ 'z'))

/-- Model of `MockAdapter.addExercise` in `src/src/App.tsx`:
`const id = ex.id || ex_<token>` (the token stands for
`Math.random().toString(36).slice(2, 10)`), store `{...ex, id}` under `id`,
and report success with the assigned id. -/
def mockAddExercise_tsx (exercises : List (String × Exercise)) (ex : Exercise)
    (token : String) : List (String × Exercise) × AddExerciseResult :=
  let id := if ex.id = "" then "ex_" ++ token else ex.id
  (assocUpsert exercises id { ex with id := id },
    { ok := true, exercise_id := id })

/-- Model of `MockAdapter.addExercise` in `src/unnamed/part_000`:
`MOCK_DB.exercises[ex.id] = ex` — no identifier is ever generated. -/
def mockAddExercise_p0 (exercises : List (String × Exercise)) (ex : Exercise) :
    List (String × Exercise) × AddExerciseResult :=
  (assocUpsert exercises ex.id ex, { ok := true, exercise_id := ex.id })

/-- C4 (amended): in the `App.tsx` Mock Adapter, an exercise with a
non-empty id is stored under that id, and one with an absent (empty) id is
stored under the freshly generated `ex_` + token key, with `ok = true` and
the assigned id returned in both cases; the `part_000` Mock Adapter instead
stores the record under the exercise's own id unconditionally, generating
nothing. -/
theorem mockAdapter_addExercise_spec (exercises : List (String × Exercise))
    (ex : Exercise) (token : String)
    (htok : token.length = 8 ∧ ∀ c ∈ token.toList, isBase36Char c = true) :
    (ex.id ≠ "" →
      mockAddExercise_tsx exercises ex token =
        (assocUpsert exercises ex.id { ex with id := ex.id },
          { ok := true, exercise_id := ex.id })) ∧
    (ex.id = "" →
      (mockAddExercise_tsx exercises ex token).2.ok = true ∧
      (mockAddExercise_tsx exercises ex token).2.exercise_id = "ex_" ++ token ∧
      ("ex_" ++ token).length = 11 ∧
      (∀ c ∈ token.toList, isBase36Char c = true) ∧
      assocLookup (mockAddExercise_tsx exercises ex token).1 ("ex_" ++ token) =
        some { ex with id := "ex_" ++ token }) ∧
    mockAddExercise_p0 exercises ex =
      (assocUpsert exercises ex.id ex, { ok := true, exercise_id := ex.id }) := by
  refine ⟨?_, ?_, rfl⟩
  · intro hne
    simp [mockAddExercise_tsx, hne]
  · intro he
    refine ⟨by simp [mockAddExercise_tsx, he], by simp [mockAddExercise_tsx, he],
      ?_, htok.2, ?_⟩
    · rw [String.length_append, htok.1]
      decide
    · simp [mockAddExercise_tsx, he, assocLookup_upsert]

/-- Exercise fixture with an absent (empty) id. -/
def exNoId : Exercise :=
  { id := "", name := "New Move", equipment := "", type := ExType.strength }

/-- C4 witness: the addExercise theorem evaluated with an empty id and the
concrete token "abcd0123". -/
theorem mockAdapter_addExercise_spec_witness :
    (("abcd0123" : String).length = 8 ∧
      (∀ c ∈ ("abcd0123" : String).toList, isBase36Char c = true) ∧
      exNoId.id = "") ∧
    ((mockAddExercise_tsx [] exNoId "abcd0123").2.exercise_id = "ex_abcd0123" ∧
      (mockAddExercise_tsx [] exNoId "abcd0123").2.ok = true ∧
      assocLookup (mockAddExercise_tsx [] exNoId "abcd0123").1 "ex_abcd0123" =
        some { exNoId with id := "ex_abcd0123" }) :=
  ⟨⟨by decide, by decide, rfl⟩,
    ((mockAdapter_addExercise_spec [] exNoId "abcd0123"
        ⟨by decide, by decide⟩).2.1 rfl).2.1,
    ((mockAdapter_addExercise_spec [] exNoId "abcd0123"
        ⟨by decide, by decide⟩).2.1 rfl).1,
    ((mockAdapter_addExercise_spec [] exNoId "abcd0123"
        ⟨by decide, by decide⟩).2.1 rfl).2.2.2.2⟩

/-- C4 counterexample: the `part_000` Mock Adapter, fed an exercise with an
absent id, stores the record under the empty-string key and returns the
empty string — not an identifier of the form `ex_` + 8 base-36 characters. -/
theorem mockAddExercise_p0_no_generation :
    (mockAddExercise_p0 [] exNoId).2.exercise_id = "" ∧
    (mockAddExercise_p0 [] exNoId).1 = [("", exNoId)] ∧
    (mockAddExercise_p0 [] exNoId).2.exercise_id.length ≠ 11 ∧
    (mockAddExercise_p0 [] exNoId).2.exercise_id.toList.take 3 ≠
      ("ex_" : String).toList := by
  decide

-- ===== C5: GoogleSheetsAdapter.listCardio =====

/-- The JSON body of a `listCardio` response, with each key possibly absent. -/
structure ListCardioResp where
  plan : Option (List CardioPlanRow) := none
  cardio : Option (List CardioPlanRow) := none
  logs : Option (List CardioLog) := none
deriving DecidableEq

/-- Model of `listCardio` in `part_000`: `plan: (j.plan || j.cardio || [])`,
`logs: (j.logs || [])` (an array is always truthy). -/
def sheetsListCardio_p0 (j : ListCardioResp) :
    List CardioPlanRow × List CardioLog :=
  (match j.plan with
   | some l => l
   | none => j.cardio.getD [], j.logs.getD [])

/-- Model of `listCardio` in `App.tsx`: `plan = (j.cardio ?? [])`,
`logs = (j.logs ?? [])` — the `plan` key is never consulted. -/
def sheetsListCardio_tsx (j : ListCardioResp) :
    List CardioPlanRow × List CardioLog :=
  (j.cardio.getD [], j.logs.getD [])

/-- C5 (amended): the `part_000` Sheets Adapter accepts the cardio plan
under either key, preferring `plan` and falling back to `cardio`, so both
response shapes parse to the same plan list, and `logs` defaults to the
empty list when absent; the `App.tsx` Sheets Adapter reads only the
`cardio` key, so a response exposing the data under `plan` parses to an
empty plan list there. -/
theorem sheetsAdapter_listCardio_keys (l : List CardioPlanRow)
    (c : Option (List CardioPlanRow)) (lg : Option (List CardioLog)) :
    (sheetsListCardio_p0 { plan := some l, cardio := c, logs := lg }).1 = l ∧
    (sheetsListCardio_p0 { plan := none, cardio := some l, logs := lg }).1 = l ∧
    (sheetsListCardio_p0 { plan := none, cardio := none, logs := lg }).1 = [] ∧
    (sheetsListCardio_p0 { plan := some l, cardio := c, logs := none }).2 = [] ∧
    (sheetsListCardio_tsx { plan := some l, cardio := none, logs := lg }).1 = [] ∧
    (sheetsListCardio_tsx { plan := none, cardio := some l, logs := lg }).1 = l ∧
    (sheetsListCardio_tsx { plan := some l, cardio := none, logs := none }).2 = [] :=
  ⟨rfl, rfl, rfl, rfl, rfl, rfl, rfl⟩

/-- Cardio plan row fixture. -/
def cardioRide : CardioPlanRow :=
  { day_id := some "Day 2", activity := "Zone 2 Ride"
    target_duration_min := some 60, target_hr_zone := some "Z2" }

/-- C5 counterexample: in the `App.tsx` Sheets Adapter a response exposing
the cardio plan under `plan` and one exposing it under `cardio` parse to
different plan lists, so the claimed either-key tolerance fails there. -/
theorem sheetsListCardio_tsx_drops_plan_key :
    (sheetsListCardio_tsx { plan := some [cardioRide] }).1 = [] ∧
    (sheetsListCardio_tsx { cardio := some [cardioRide] }).1 = [cardioRide] ∧
    (sheetsListCardio_tsx { plan := some [cardioRide] }).1 ≠
      (sheetsListCardio_tsx { cardio := some [cardioRide] }).1 := by
  decide

-- ===== C6 / C10: Sheets write paths =====

/-- The JSON body the Apps Script bridge returns for a write action. -/
structure BridgeWriteResp where
  ok : Bool := true
  exercise_id : Option String := none
deriving DecidableEq

/-- Shape `{ ok: boolean }` as returned by the adapter's write operations. -/
structure OkResp where
  ok : Bool
deriving DecidableEq

/-- Model of `postJSON` in `App.tsx`: throws `<action> failed` on a non-success HTTP
status, otherwise yields the parsed response body. -/
def postJSON_tsx (action : String) (httpOk : Bool) (resp : BridgeWriteResp) :
    Except String BridgeWriteResp :=
  if httpOk then Except.ok resp else Except.error (action ++ " failed")

/-- Model of `GoogleSheetsAdapter.saveStrengthLog` in `App.tsx`: await the post,
then return `{ ok: true }` regardless of the response body. -/
def sheetsSaveStrengthLog_tsx (_log : StrengthLog) (httpOk : Bool)
    (resp : BridgeWriteResp) : Except String OkResp :=
  match postJSON_tsx "saveStrengthLog" httpOk resp with
  | Except.ok _ => Except.ok { ok := true }
  | Except.error e => Except.error e

/-- Model of `GoogleSheetsAdapter.saveCardioLog` in `App.tsx`. -/
def sheetsSaveCardioLog_tsx (_log : CardioLog) (httpOk : Bool)
    (resp : BridgeWriteResp) : Except String OkResp :=
  match postJSON_tsx "saveCardioLog" httpOk resp with
  | Except.ok _ => Except.ok { ok := true }
  | Except.error e => Except.error e

/-- Model of `GoogleSheetsAdapter.addPlanRow` in `App.tsx`. -/
def sheetsAddPlanRow_tsx (_row : PlanRow) (httpOk : Bool)
    (resp : BridgeWriteResp) : Except String OkResp :=
  match postJSON_tsx "addPlanRow" httpOk resp with
  | Except.ok _ => Except.ok { ok := true }
  | Except.error e => Except.error e

/-- Model of `GoogleSheetsAdapter.addExercise` in `App.tsx`: await the post, then
return `{ ok: true, exercise_id: ex.id }` — the id it sent, never the echo. -/
def sheetsAddExercise_tsx (ex : Exercise) (httpOk : Bool)
    (resp : BridgeWriteResp) : Except String BridgeWriteResp :=
  match postJSON_tsx "addExercise" httpOk resp with
  | Except.ok _ => Except.ok { ok := true, exercise_id := some ex.id }
  | Except.error e => Except.error e

/-- Model of `GoogleSheetsAdapter.addExercise` in `part_000`:
`return await postJSON(...)` — the bridge's response body verbatim. -/
def sheetsAddExercise_p0 (_ex : Exercise) (resp : BridgeWriteResp) :
    BridgeWriteResp :=
  resp

/-- C6 (amended): the `App.tsx` Sheets Adapter's addExercise always returns
`ok = true` with the id it sent, ignoring any echoed `exercise_id`; the
`part_000` variant returns the bridge's response verbatim, so an omitted
`exercise_id` yields no identifier (no fallback to the sent id) and an
echoed one is passed through. -/
theorem sheetsAdapter_addExercise_id_mapping (ex : Exercise)
    (resp : BridgeWriteResp) :
    sheetsAddExercise_tsx ex true resp =
      Except.ok { ok := true, exercise_id := some ex.id } ∧
    sheetsAddExercise_p0 ex resp = resp ∧
    (resp.exercise_id = none →
      (sheetsAddExercise_p0 ex resp).exercise_id = none) ∧
    (∀ e, resp.exercise_id = some e →
      (sheetsAddExercise_p0 ex resp).exercise_id = some e) :=
  ⟨rfl, rfl, fun h => h, fun _ h => h⟩

/-- Exercise fixture carrying the id the caller sent. -/
def exSent : Exercise :=
  { id := "ex_1", name := "X", equipment := "", type := ExType.strength }

/-- C6 witness: the id-mapping theorem evaluated on a response that omits
`exercise_id`. -/
theorem sheetsAdapter_addExercise_id_mapping_witness :
    ({ ok := true, exercise_id := none : BridgeWriteResp }.exercise_id = none) ∧
    (sheetsAddExercise_tsx exSent true { ok := true, exercise_id := none } =
      Except.ok { ok := true, exercise_id := some "ex_1" } ∧
    (sheetsAddExercise_p0 exSent { ok := true, exercise_id := none }).exercise_id =
      none) :=
  ⟨rfl,
    (sheetsAdapter_addExercise_id_mapping exSent
      { ok := true, exercise_id := none }).1,
    (sheetsAdapter_addExercise_id_mapping exSent
      { ok := true, exercise_id := none }).2.2.1 rfl⟩

/-- C6 counterexample: when the bridge echoes a different `exercise_id`
("srv_9"), the `App.tsx` adapter still returns the sent id ("ex_1") — not
the echoed value; and when the bridge omits `exercise_id`, the `part_000`
adapter returns no identifier — not the sent id. -/
theorem sheetsAddExercise_claim_fails_both_variants :
    sheetsAddExercise_tsx exSent true { ok := true, exercise_id := some "srv_9" } =
      Except.ok { ok := true, exercise_id := some "ex_1" } ∧
    (some "ex_1" : Option String) ≠ some "srv_9" ∧
    (sheetsAddExercise_p0 exSent { ok := true, exercise_id := none }).exercise_id =
      none ∧
    (none : Option String) ≠ some exSent.id :=
  ⟨rfl, by decide, rfl, by decide⟩

-- ===== C7: getJSON read-path error handling =====

/-- Outcome of a read: parsed value, the manufactured diagnostic error, a
raw `JSON.parse` exception propagated untouched, or an HTTP-status error. -/
inductive ReadResult (J : Type) where
  | ok (j : J)
  | jsonError (msg : String)
  | parseFailure
  | httpError (msg : String)
deriving DecidableEq

/-- Model of `getJSON` in `part_000`: read the body text, try `JSON.parse`, and on
failure throw the diagnostic error carrying the first 120 characters of the
raw body.  `parse` stands for `JSON.parse`, `none` meaning it throws. -/
def getJSON_p0 {J : Type} (parse : String → Option J) (body : String) :
    ReadResult J :=
  match parse body with
  | some j => ReadResult.ok j
  | none => ReadResult.jsonError
      ("API returned non-JSON. First 120: " ++ body.take 120)

/-- Model of `getJSON` in `App.tsx`: throw `<action> failed` on a non-success HTTP
status, otherwise `return r.json()` — a body that fails to parse propagates
the raw parse failure with no diagnostic. -/
def getJSON_tsx {J : Type} (action : String) (httpOk : Bool)
    (parse : String → Option J) (body : String) : ReadResult J :=
  if httpOk then
    match parse body with
    | some j => ReadResult.ok j
    | none => ReadResult.parseFailure
  else ReadResult.httpError (action ++ " failed")

/-- C7 (amended): for every read whose body fails to parse as JSON, the
`part_000` Sheets Adapter raises the diagnostic error carrying the first
120 characters of the raw body; the `App.tsx` Sheets Adapter instead
propagates the raw parse failure undecorated (its `getJSON` only maps a
non-success HTTP status to an action-named error).  A successfully parsed
body is returned as-is by both. -/
theorem sheets_getJSON_nonjson_handling {J : Type} (parse : String → Option J)
    (body action : String) :
    (parse body = none →
      getJSON_p0 parse body = ReadResult.jsonError
        ("API returned non-JSON. First 120: " ++ body.take 120) ∧
      getJSON_tsx action true parse body = ReadResult.parseFailure) ∧
    (∀ j, parse body = some j →
      getJSON_p0 parse body = ReadResult.ok j ∧
      getJSON_tsx action true parse body = ReadResult.ok j) ∧
    getJSON_tsx action false parse body =
      ReadResult.httpError (action ++ " failed") := by
  refine ⟨?_, ?_, rfl⟩
  · intro h
    constructor
    · simp [getJSON_p0, h]
    · simp [getJSON_tsx, h]
  · intro j h
    constructor
    · simp [getJSON_p0, h]
    · simp [getJSON_tsx, h]

/-- A `JSON.parse` that always throws, as on an HTML error page body. -/
def parseNothing : String → Option Unit := fun _ => none

set_option maxRecDepth 4000 in
/-- C7 witness: the read-path theorem evaluated on a concrete HTML body. -/
theorem sheets_getJSON_nonjson_handling_witness :
    parseNothing "<!DOCTYPE html><title>Sorry</title>" = none ∧
    getJSON_p0 parseNothing "<!DOCTYPE html><title>Sorry</title>" =
      ReadResult.jsonError
        "API returned non-JSON. First 120: <!DOCTYPE html><title>Sorry</title>" ∧
    getJSON_tsx "listDays" true parseNothing "<!DOCTYPE html><title>Sorry</title>" =
      ReadResult.parseFailure :=
  ⟨rfl,
    ((sheets_getJSON_nonjson_handling parseNothing
      "<!DOCTYPE html><title>Sorry</title>" "listDays").1 rfl).1,
    ((sheets_getJSON_nonjson_handling parseNothing
      "<!DOCTYPE html><title>Sorry</title>" "listDays").1 rfl).2⟩

/-- C7 counterexample: in the `App.tsx` variant the error raised for a
non-JSON body on a read is the bare parse failure, which is not the
diagnostic error carrying the body's first 120 characters. -/
theorem sheets_tsx_getJSON_raw_parse_failure :
    getJSON_tsx "listDays" true parseNothing "<!DOCTYPE html>" =
      ReadResult.parseFailure ∧
    (ReadResult.parseFailure : ReadResult Unit) ≠
      ReadResult.jsonError "API returned non-JSON. First 120: <!DOCTYPE html>" := by
  refine ⟨rfl, ?_⟩
  decide

-- ===== C10: App.tsx write paths discard the body's ok flag =====

/-- C10 (confirmed): every `App.tsx` Sheets write operation returns
`ok = true` whenever the HTTP status indicates success, discarding the
bridge's body-level `ok` — a body reporting failure is indistinguishable
from one reporting success. -/
theorem sheets_tsx_writes_discard_body_ok (resp : BridgeWriteResp)
    (log : StrengthLog) (clog : CardioLog) (row : PlanRow) (ex : Exercise) :
    sheetsSaveStrengthLog_tsx log true resp = Except.ok { ok := true } ∧
    sheetsSaveCardioLog_tsx clog true resp = Except.ok { ok := true } ∧
    sheetsAddPlanRow_tsx row true resp = Except.ok { ok := true } ∧
    sheetsAddExercise_tsx ex true resp =
      Except.ok { ok := true, exercise_id := some ex.id } ∧
    sheetsSaveStrengthLog_tsx log true { ok := false } =
      sheetsSaveStrengthLog_tsx log true { ok := true } ∧
    sheetsSaveStrengthLog_tsx log false resp =
      Except.error ("saveStrengthLog" ++ " failed") :=
  ⟨rfl, rfl, rfl, rfl, rfl, rfl⟩

-- ===== C9: icon generator padding arithmetic =====

/-- The `PADDING` constant of `tools/gen-icons.mjs`. -/
def PADDING : ℚ := 12 / 100

/-- JS `Math.round`: round half away from zero upward, `⌊x + 1/2⌋`. -/
def jsRound (q : ℚ) : Int := ⌊q + 1 / 2⌋

/-- Computation `Math.round(size * (1 - 2 * PADDING))` — the inner content box. -/
def innerBox (size : ℚ) : Int := jsRound (size * (1 - 2 * PADDING))

/-- Geometry of one `renderPadded(size, { maskable })` output. -/
structure PaddedIcon where
  width : ℚ
  height : ℚ
  inner : Int
  left : Int
  top : Int
  transparentBackground : Bool
deriving DecidableEq

/-- Model of `renderPadded` in `tools/gen-icons.mjs`: an `inner × inner` contain-fit
raster composited at `Math.round((size - inner) / 2)` onto a `size × size`
canvas whose background is transparent exactly when `maskable`. -/
def renderPadded (size : ℚ) (maskable : Bool) : PaddedIcon :=
  { width := size
    height := size
    inner := innerBox size
    left := jsRound ((size - (innerBox size : ℚ)) / 2)
    top := jsRound ((size - (innerBox size : ℚ)) / 2)
    transparentBackground := maskable }

/-- C9 (confirmed): for every size the inner content box is
`round(size * (1 - 2 * 0.12))` on a `size × size` canvas; at size 512 the
inner box is 389 pixels and the centering margin is `round(61.5) = 62` on
the left/top with `512 - 389 - 62 = 61` remaining on the right/bottom. -/
theorem genIcons_renderPadded_arithmetic :
    (∀ (size : ℚ) (maskable : Bool),
      (renderPadded size maskable).inner = jsRound (size * (1 - 2 * (12 / 100))) ∧
      (renderPadded size maskable).width = size ∧
      (renderPadded size maskable).height = size ∧
      (renderPadded size maskable).left =
        jsRound ((size - ((renderPadded size maskable).inner : ℚ)) / 2) ∧
      (renderPadded size maskable).top = (renderPadded size maskable).left) ∧
    innerBox 512 = 389 ∧
    (renderPadded 512 false).left = 62 ∧
    (renderPadded 512 false).top = 62 ∧
    ((512 : Int) - 389 - 62 = 61) ∧
    (renderPadded 512 true).transparentBackground = true ∧
    (renderPadded 512 false).transparentBackground = false := by
  have hin : innerBox 512 = 389 := by
    norm_num [innerBox, jsRound, PADDING]
  have hleft : jsRound ((512 - ((innerBox 512 : Int) : ℚ)) / 2) = 62 := by
    rw [hin]
    norm_num [jsRound]
  refine ⟨fun size maskable => ⟨rfl, rfl, rfl, rfl, rfl⟩,
    hin, hleft, hleft, by norm_num, rfl, rfl⟩
